import Mathlib

/-!
Verification development for the CADhelp orthographic-projection generator
(source: cadapp.py).  Python floats are modelled as real numbers; values that
may be `None` are modelled as `Option ℝ`; the PIL drawing calls made by the
`draw_*` functions are modelled as a list of emitted `Primitive`s, in emission
order.  The informational side panel (`draw_info_panel`) renders a fixed border
rectangle plus text lines inside the info box; since it carries no view
geometry it is modelled as a single `Primitive.info` carrying the message text
(numeric interpolations of Python f-strings are elided from the text as they
play no geometric role).
-/

noncomputable section

/-- Points in canvas (pixel) space or logical (mm) plan space. -/
abbrev Pt : Type := ℝ × ℝ

/-- A view box `(left, top, right, bottom)` on the canvas. -/
structure Box where
  left : ℝ
  top : ℝ
  right : ℝ
  bottom : ℝ

def CANVAS_W : ℝ := 1400
def CANVAS_H : ℝ := 900
def MARGIN : ℝ := 36

/-- `CANVAS_H // 2`; the integer division is exact here (900/2). -/
def XY_Y : ℝ := CANVAS_H / 2

def LINE_HP : ℕ := 4
def LINE_VP : ℕ := 3
def LINE_CONST : ℕ := 1

/-- `FRONT_BOX = (MARGIN, MARGIN, CANVAS_W//2 - MARGIN, XY_Y - 20)`;
`CANVAS_W//2` is exact (1400/2). Numerically `(36, 36, 664, 430)`. -/
def FRONT_BOX : Box := ⟨MARGIN, MARGIN, CANVAS_W / 2 - MARGIN, XY_Y - 20⟩

/-- `TOP_BOX = (MARGIN, XY_Y + 20, CANVAS_W//2 - MARGIN, CANVAS_H - MARGIN)`,
numerically `(36, 470, 664, 864)`. -/
def TOP_BOX : Box := ⟨MARGIN, XY_Y + 20, CANVAS_W / 2 - MARGIN, CANVAS_H - MARGIN⟩

/-- `INFO_BOX = (CANVAS_W//2 + 10, MARGIN, CANVAS_W - MARGIN, CANVAS_H - MARGIN)`,
numerically `(710, 36, 1364, 864)`. -/
def INFO_BOX : Box := ⟨CANVAS_W / 2 + 10, MARGIN, CANVAS_W - MARGIN, CANVAS_H - MARGIN⟩

/-- `fit_scale_for_box(max_mm, box)` from cadapp.py: mm→px scale fitting
`max_mm` into the box (20 px inset), defaulting to `1.0` when `max_mm == 0`. -/
def fit_scale_for_box (max_mm : ℝ) (box : Box) : ℝ :=
  let w := box.right - box.left - 20
  let h := box.bottom - box.top - 20
  if max_mm = 0 then 1
  else min (w / max_mm) (h / max_mm)

/-- `transform_to_box_coords(x_mm, y_mm, box, scale)`: logical mm coordinates,
origin at the box center, with the vertical axis flipped (pixel y grows
downward). -/
def transform_to_box_coords (x_mm y_mm : ℝ) (box : Box) (scale : ℝ) : Pt :=
  let cx := (box.left + box.right) / 2
  let cy := (box.top + box.bottom) / 2
  (cx + x_mm * scale, cy - y_mm * scale)

/-- `math.radians`. -/
def radians (deg : ℝ) : ℝ := deg * Real.pi / 180

/-- `apparent_length(true_len, angle_deg)` from cadapp.py:
`abs(true_len * cos(radians(angle_deg)))`, `None`-propagating. -/
def apparent_length (true_len angle_deg : Option ℝ) : Option ℝ :=
  match true_len, angle_deg with
  | some L, some a => some |L * Real.cos (radians a)|
  | _, _ => none

/-- `true_from_apparent(apparent, angle_deg)` from cadapp.py: division by the
cosine, returning `None` when the cosine is zero (or an input is `None`). -/
def true_from_apparent (apparent angle_deg : Option ℝ) : Option ℝ :=
  match apparent, angle_deg with
  | some ap, some a =>
      if Real.cos (radians a) = 0 then none
      else some (ap / Real.cos (radians a))
  | _, _ => none

/-- Drawing primitives emitted by the `draw_*` functions, in the order of the
PIL calls in the source.  `line` is a (poly)line through the listed points with
stroke width `w`; `rect`/`ellipse` take the PIL bounding box `[x0,y0,x1,y1]`;
`polygon` is `draw.polygon(..., outline=...)`; `text` a label; `info` the
informational side panel with its message. -/
inductive Primitive where
  | line (pts : List Pt) (w : ℕ)
  | rect (x0 y0 x1 y1 : ℝ) (w : ℕ)
  | ellipse (x0 y0 x1 y1 : ℝ) (w : ℕ)
  | polygon (pts : List Pt)
  | text (pos : Pt) (s : String)
  | info (s : String)

/-- Is a primitive a thin projector / construction segment (width `LINE_CONST`)? -/
def isConstruction : Primitive → Bool
  | .line _ w => w == 1
  | _ => false

/-- The endpoint lists of all Construction (width-1) line primitives, in order. -/
def constructionSegs : List Primitive → List (List Pt)
  | [] => []
  | Primitive.line pts w :: rest =>
      if w = 1 then pts :: constructionSegs rest else constructionSegs rest
  | Primitive.rect _ _ _ _ _ :: rest => constructionSegs rest
  | Primitive.ellipse _ _ _ _ _ :: rest => constructionSegs rest
  | Primitive.polygon _ :: rest => constructionSegs rest
  | Primitive.text _ _ :: rest => constructionSegs rest
  | Primitive.info _ :: rest => constructionSegs rest

/-- Euclidean distance in the plane (for both mm-space and pixel-space points). -/
def pdist (p q : Pt) : ℝ := Real.sqrt ((p.1 - q.1) ^ 2 + (p.2 - q.2) ^ 2)

/-- Claim C9: the Layout/Scaler never fails: `fit_scale_for_box` is total,
returns exactly `1.0` on zero maximum extent (no division by zero), and
otherwise the minimum of usable-width/extent and usable-height/extent
(usable = box dimension less the fixed 20 px inset). -/
theorem claim_C9_scaler_total :
    (∀ box : Box, fit_scale_for_box 0 box = 1) ∧
    ∀ (m : ℝ) (box : Box), m ≠ 0 →
      fit_scale_for_box m box =
        min ((box.right - box.left - 20) / m) ((box.bottom - box.top - 20) / m) := by
  constructor
  · intro box
    simp [fit_scale_for_box]
  · intro m box hm
    simp [fit_scale_for_box, hm]

theorem claim_C9_scaler_total_witness :
    fit_scale_for_box 100 FRONT_BOX =
      min ((FRONT_BOX.right - FRONT_BOX.left - 20) / 100)
        ((FRONT_BOX.bottom - FRONT_BOX.top - 20) / 100) :=
  claim_C9_scaler_total.2 100 FRONT_BOX (by norm_num)

/-- Claim C1 (amended): the Info Calculator round-trip
`true_from_apparent (apparent_length L θ) θ = L` holds whenever `L > 0` and
`cos θ > 0` (not merely `cos θ ≠ 0`: `apparent_length` takes an absolute
value, so a negative cosine yields `-L`), and at `θ = 90°` (zero cosine)
`true_from_apparent` reports failure by returning `none`. -/
theorem claim_C1_roundtrip :
    (∀ L θ : ℝ, 0 < L → 0 < Real.cos (radians θ) →
      true_from_apparent (apparent_length (some L) (some θ)) (some θ) = some L) ∧
    ∀ x : ℝ, true_from_apparent (some x) (some 90) = none := by
  constructor
  · intro L θ hL hc
    have habs : |L * Real.cos (radians θ)| = L * Real.cos (radians θ) :=
      abs_of_pos (mul_pos hL hc)
    simp only [apparent_length, true_from_apparent, habs, ne_of_gt hc, if_false,
      if_neg (ne_of_gt hc)]
    rw [mul_div_assoc, div_self (ne_of_gt hc), mul_one]
  · intro x
    have h90 : radians 90 = Real.pi / 2 := by unfold radians; ring
    simp [true_from_apparent, h90, Real.cos_pi_div_two]

theorem claim_C1_roundtrip_witness :
    true_from_apparent (apparent_length (some 80) (some 0)) (some 0) = some 80 ∧
    true_from_apparent (some 40) (some 90) = none := by
  refine ⟨claim_C1_roundtrip.1 80 0 (by norm_num) ?_, claim_C1_roundtrip.2 40⟩
  have h0 : radians 0 = 0 := by unfold radians; ring
  rw [h0, Real.cos_zero]
  norm_num

/-- Claim C1 counterexample: at `θ = 120°` the cosine is `-1/2 ≠ 0`, yet the
round-trip returns `-80` instead of `80`, because `apparent_length` uses an
absolute value that `true_from_apparent` does not undo. -/
theorem claim_C1_counterexample :
    true_from_apparent (apparent_length (some 80) (some 120)) (some 120) = some (-80) ∧
    true_from_apparent (apparent_length (some 80) (some 120)) (some 120) ≠ some 80 := by
  have h120 : radians 120 = Real.pi - Real.pi / 3 := by unfold radians; ring
  have hc : Real.cos (radians 120) = -(1 / 2) := by
    rw [h120, Real.cos_pi_sub, Real.cos_pi_div_three]
  have habs : |(80 : ℝ) * -(1 / 2)| = 40 := by norm_num
  constructor
  · simp only [apparent_length, true_from_apparent, hc, habs]
    norm_num
  · simp only [apparent_length, true_from_apparent, hc, habs]
    norm_num

/-- The angle of vertex `i` of a regular `m`-gon as generated by
`regular_polygon_vertices`: one vertex starts at `-pi/2`. -/
def poly_angle (m : ℕ) (i : ℕ) : ℝ := -(Real.pi / 2) + 2 * Real.pi * i / m

/-- Vertex `i` of the regular `m`-gon of side `side` centered at the origin,
circumradius `R = side / (2 sin(pi/m))` (the loop body of
`regular_polygon_vertices`). -/
def poly_vertex (m : ℕ) (side : ℝ) (i : ℕ) : Pt :=
  let R := side / (2 * Real.sin (Real.pi / m))
  (R * Real.cos (poly_angle m i), R * Real.sin (poly_angle m i))

/-- `regular_polygon_vertices(n, side)` from cadapp.py: `n = int(n)` then
`if n < 3: n = 3`, then `n` vertices at circumradius `s/(2 sin(pi/n))`
starting at angle `-pi/2`. -/
def regular_polygon_vertices (n : ℤ) (side : ℝ) : List Pt :=
  let m : ℕ := (max n 3).toNat
  (List.range m).map (poly_vertex m side)

lemma sin_pi_div_pos {m : ℕ} (hm : 2 ≤ m) : 0 < Real.sin (Real.pi / m) := by
  have hm0 : (0 : ℝ) < m := by exact_mod_cast (by omega : 0 < m)
  have h1 : (1 : ℝ) < m := by exact_mod_cast (by omega : 1 < m)
  apply Real.sin_pos_of_pos_of_lt_pi
  · exact div_pos Real.pi_pos hm0
  · exact div_lt_self Real.pi_pos h1

lemma poly_vertex_mod (m : ℕ) (hm : 2 ≤ m) (side : ℝ) (i : ℕ) :
    poly_vertex m side (i % m) = poly_vertex m side i := by
  have hm0 : (m : ℝ) ≠ 0 := by positivity
  have hdec : m * (i / m) + i % m = i := Nat.div_add_mod i m
  have hang : poly_angle m i = poly_angle m (i % m) + (i / m : ℕ) * (2 * Real.pi) := by
    unfold poly_angle
    have : ((i : ℝ)) = m * (i / m : ℕ) + (i % m : ℕ) := by exact_mod_cast hdec.symm
    rw [this]
    field_simp
    ring
  unfold poly_vertex
  simp only [hang, Real.cos_add_nat_mul_two_pi, Real.sin_add_nat_mul_two_pi]

lemma poly_vertex_consec_dist (m : ℕ) (hm : 2 ≤ m) (side : ℝ) (hs : 0 ≤ side) (i : ℕ) :
    pdist (poly_vertex m side i) (poly_vertex m side (i + 1)) = side := by
  have hsin := sin_pi_div_pos hm
  have hm0 : (m : ℝ) ≠ 0 := by positivity
  have hdiff : poly_angle m (i + 1) = poly_angle m i + 2 * (Real.pi / m) := by
    unfold poly_angle
    push_cast
    field_simp
    ring
  unfold pdist poly_vertex
  simp only [hdiff]
  have hcos : Real.cos (poly_angle m i + 2 * (Real.pi / m)) =
      Real.cos (poly_angle m i) * Real.cos (2 * (Real.pi / m)) -
      Real.sin (poly_angle m i) * Real.sin (2 * (Real.pi / m)) := Real.cos_add _ _
  have hsin2 : Real.sin (poly_angle m i + 2 * (Real.pi / m)) =
      Real.sin (poly_angle m i) * Real.cos (2 * (Real.pi / m)) +
      Real.cos (poly_angle m i) * Real.sin (2 * (Real.pi / m)) := Real.sin_add _ _
  set R := side / (2 * Real.sin (Real.pi / m)) with hR
  set C := Real.cos (poly_angle m i)
  set S := Real.sin (poly_angle m i)
  set c2 := Real.cos (2 * (Real.pi / m))
  set s2 := Real.sin (2 * (Real.pi / m))
  have hpyta : S ^ 2 + C ^ 2 = 1 := Real.sin_sq_add_cos_sq _
  have hpytb : s2 ^ 2 + c2 ^ 2 = 1 := Real.sin_sq_add_cos_sq _
  have hc2 : c2 = 1 - 2 * Real.sin (Real.pi / m) ^ 2 := by
    show Real.cos (2 * (Real.pi / m)) = _
    rw [Real.cos_two_mul, Real.cos_sq']
    ring
  have hRs : R * (2 * Real.sin (Real.pi / m)) = side := by
    rw [hR]; field_simp
  have key : (R * C - R * (C * c2 - S * s2)) ^ 2 +
      (R * S - R * (S * c2 + C * s2)) ^ 2 = R ^ 2 * (2 - 2 * c2) := by
    linear_combination (R ^ 2 * (1 - 2 * c2 + c2 ^ 2 + s2 ^ 2)) * hpyta + R ^ 2 * hpytb
  have hE : (R * C - R * (C * c2 - S * s2)) ^ 2 +
      (R * S - R * (S * c2 + C * s2)) ^ 2 = side ^ 2 := by
    rw [key, hc2]
    linear_combination (2 * R * Real.sin (Real.pi / m) + side) * hRs
  rw [hcos, hsin2, hE, Real.sqrt_sq hs]

lemma poly_vertex_norm (m : ℕ) (hm : 2 ≤ m) (side : ℝ) (hs : 0 ≤ side) (i : ℕ) :
    pdist (poly_vertex m side i) (0, 0) = side / (2 * Real.sin (Real.pi / m)) := by
  have hsin := sin_pi_div_pos hm
  have hRpos : 0 ≤ side / (2 * Real.sin (Real.pi / m)) := by positivity
  unfold pdist poly_vertex
  set R := side / (2 * Real.sin (Real.pi / m)) with hR
  have hsq : (R * Real.cos (poly_angle m i) - 0) ^ 2 +
      (R * Real.sin (poly_angle m i) - 0) ^ 2 = R ^ 2 := by
    linear_combination R ^ 2 * Real.sin_sq_add_cos_sq (poly_angle m i)
  rw [hsq, Real.sqrt_sq hRpos]

lemma getD_range_map {β : Type} (f : ℕ → β) (m i : ℕ) (h : i < m) (d : β) :
    ((List.range m).map f).getD i d = f i := by
  rw [List.getD_eq_getElem _ _ (by simpa using h)]
  simp

lemma regular_polygon_vertices_natAbs (n : ℕ) (hn : 3 ≤ n) (side : ℝ) :
    regular_polygon_vertices (n : ℤ) side = (List.range n).map (poly_vertex n side) := by
  unfold regular_polygon_vertices
  have h1 : max (n : ℤ) 3 = (n : ℤ) := max_eq_left (by exact_mod_cast hn)
  simp [h1]

/-- Claim C8: for `n ≥ 3` and side `s > 0`, `regular_polygon_vertices n s`
returns exactly `n` vertices, each at distance `R = s/(2 sin(pi/n))` from the
origin, and each pair of consecutive vertices (including last-to-first) at
distance `s`. -/
theorem claim_C8_regular_polygon (n : ℕ) (hn : 3 ≤ n) (s : ℝ) (hs : 0 < s) :
    (regular_polygon_vertices (n : ℤ) s).length = n ∧
    (∀ p ∈ regular_polygon_vertices (n : ℤ) s,
      pdist p (0, 0) = s / (2 * Real.sin (Real.pi / n))) ∧
    ∀ i, i < n →
      pdist ((regular_polygon_vertices (n : ℤ) s).getD i (0, 0))
        ((regular_polygon_vertices (n : ℤ) s).getD ((i + 1) % n) (0, 0)) = s := by
  have hm : 2 ≤ n := by omega
  rw [regular_polygon_vertices_natAbs n hn s]
  refine ⟨by simp, ?_, ?_⟩
  · intro p hp
    obtain ⟨i, _, rfl⟩ := List.mem_map.1 hp
    exact poly_vertex_norm n hm s hs.le i
  · intro i hi
    rw [getD_range_map _ _ _ hi, getD_range_map _ _ _ (Nat.mod_lt _ (by omega)),
      poly_vertex_mod n hm s (i + 1)]
    exact poly_vertex_consec_dist n hm s hs.le i

theorem claim_C8_regular_polygon_witness :
    (regular_polygon_vertices ((3 : ℕ) : ℤ) 30).length = 3 ∧
    (∀ p ∈ regular_polygon_vertices ((3 : ℕ) : ℤ) 30,
      pdist p (0, 0) = 30 / (2 * Real.sin (Real.pi / (3 : ℕ)))) ∧
    ∀ i, i < 3 →
      pdist ((regular_polygon_vertices ((3 : ℕ) : ℤ) 30).getD i (0, 0))
        ((regular_polygon_vertices ((3 : ℕ) : ℤ) 30).getD ((i + 1) % 3) (0, 0)) = 30 :=
  claim_C8_regular_polygon 3 (by norm_num) 30 (by norm_num)

/-- Python `params.get(key, default) or default`: a missing key, a `None`
value and a value equal to `0` (falsy) are all replaced by the default. -/
def orDefault (v : Option ℝ) (d : ℝ) : ℝ :=
  match v with
  | none => d
  | some x => if x = 0 then d else x

/-- `center_f = ((FRONT_BOX[0]+FRONT_BOX[2])//2, (FRONT_BOX[1]+FRONT_BOX[3])//2)`;
the floor divisions are exact here (700/2, 466/2), numerically `(350, 233)`. -/
def center_f : Pt :=
  ((FRONT_BOX.left + FRONT_BOX.right) / 2, (FRONT_BOX.top + FRONT_BOX.bottom) / 2)

/-- `center_t`, as `center_f` but for `TOP_BOX`; exact (700/2, 1334/2),
numerically `(350, 667)`. -/
def center_t : Pt :=
  ((TOP_BOX.left + TOP_BOX.right) / 2, (TOP_BOX.top + TOP_BOX.bottom) / 2)

/-- Canonical Point request: `infront` (y, mm in front of VP) and `above`
(z, mm above HP); both default to 30 via plain `params.get`. -/
structure PointParams where
  infront : Option ℝ
  above : Option ℝ

def point_infront (p : PointParams) : ℝ := p.infront.getD 30
def point_above (p : PointParams) : ℝ := p.above.getD 30

/-- Scale in `draw_point`: `fit_scale_for_box(max(infront, above, 100)*2.0, FRONT_BOX)`. -/
def point_scale (infront above : ℝ) : ℝ :=
  fit_scale_for_box (max (max infront above) 100 * 2.0) FRONT_BOX

/-- Front-view marker center of `draw_point`: `transform_to_box_coords(0, above, FRONT_BOX, scale)`. -/
def point_front (infront above : ℝ) : Pt :=
  transform_to_box_coords 0 above FRONT_BOX (point_scale infront above)

/-- Top-view marker center of `draw_point`: `transform_to_box_coords(0, infront, TOP_BOX, scale)`. -/
def point_top (infront above : ℝ) : Pt :=
  transform_to_box_coords 0 infront TOP_BOX (point_scale infront above)

/-- The primitives emitted by `draw_point` for resolved parameters. -/
def point_core (infront above : ℝ) : List Primitive :=
  [Primitive.ellipse ((point_front infront above).1 - 6) ((point_front infront above).2 - 6)
      ((point_front infront above).1 + 6) ((point_front infront above).2 + 6) LINE_HP,
   Primitive.ellipse ((point_top infront above).1 - 5) ((point_top infront above).2 - 5)
      ((point_top infront above).1 + 5) ((point_top infront above).2 + 5) LINE_VP,
   Primitive.line [point_front infront above, point_top infront above] LINE_CONST,
   Primitive.text ((point_front infront above).1 + 10, (point_front infront above).2 - 10)
      ("A\x27\x27"),
   Primitive.text ((point_top infront above).1 + 10, (point_top infront above).2 - 10)
      ("A\x27")]

/-- `draw_point(draw, params, label)` from cadapp.py (label fixed to `A` as at
the call site). -/
def draw_point (p : PointParams) : List Primitive :=
  point_core (point_infront p) (point_above p)

/-- Canonical Line request: `true_length`, `angle_hp`, `angle_vp`; all three
resolved through the falsy-`or` idiom (defaults 80 / 30 / 45). -/
structure LineParams where
  true_length : Option ℝ
  angle_hp : Option ℝ
  angle_vp : Option ℝ

def line_L (p : LineParams) : ℝ := orDefault p.true_length 80
def line_alpha (p : LineParams) : ℝ := orDefault p.angle_hp 30
def line_beta (p : LineParams) : ℝ := orDefault p.angle_vp 45

/-- `dz = L*sin(radians(alpha))` in `draw_line`. -/
def line_dz (L alpha : ℝ) : ℝ := L * Real.sin (radians alpha)

/-- `plan_len = L*cos(radians(alpha))` in `draw_line`. -/
def line_plan_len (L alpha : ℝ) : ℝ := L * Real.cos (radians alpha)

/-- `dx = plan_len*cos(radians(plan_angle))`, `plan_angle = 25` (fixed aesthetic
plan rotation). -/
def line_dx (L alpha : ℝ) : ℝ := line_plan_len L alpha * Real.cos (radians 25)

/-- `dy = plan_len*sin(radians(plan_angle))`. -/
def line_dy (L alpha : ℝ) : ℝ := line_plan_len L alpha * Real.sin (radians 25)

/-- `Ax = -L*0.1` (endpoint A; `Ay = Az = 0`). -/
def line_Ax (L : ℝ) : ℝ := -(L * 0.1)

def line_Bx (L alpha : ℝ) : ℝ := line_Ax L + line_dx L alpha
def line_By (L alpha : ℝ) : ℝ := 0 + line_dy L alpha
def line_Bz (L alpha : ℝ) : ℝ := 0 + line_dz L alpha

/-- `max(abs(Ax), abs(Bx), abs(Ay), abs(By), abs(Az), abs(Bz), L, 150)` with
`Ay = Az = 0`. -/
def line_max_mm (L alpha : ℝ) : ℝ :=
  max |line_Ax L| (max |line_Bx L alpha| (max |(0 : ℝ)| (max |line_By L alpha|
    (max |(0 : ℝ)| (max |line_Bz L alpha| (max L 150))))))

def line_scale (L alpha : ℝ) : ℝ :=
  fit_scale_for_box (line_max_mm L alpha * 2.2) FRONT_BOX

def line_A_front (L alpha : ℝ) : Pt :=
  transform_to_box_coords (line_Ax L) 0 FRONT_BOX (line_scale L alpha)
def line_B_front (L alpha : ℝ) : Pt :=
  transform_to_box_coords (line_Bx L alpha) (line_Bz L alpha) FRONT_BOX (line_scale L alpha)
def line_A_top (L alpha : ℝ) : Pt :=
  transform_to_box_coords (line_Ax L) 0 TOP_BOX (line_scale L alpha)
def line_B_top (L alpha : ℝ) : Pt :=
  transform_to_box_coords (line_Bx L alpha) (line_By L alpha) TOP_BOX (line_scale L alpha)

/-- The primitives emitted by `draw_line` for resolved parameters.  `beta`
(angle to VP) and the derived apparent lengths/angles feed only the info-panel
f-string, whose numeric interpolations are elided. -/
def line_core (L alpha beta : ℝ) : List Primitive :=
  [Primitive.line [line_A_front L alpha, line_B_front L alpha] LINE_HP,
   Primitive.ellipse ((line_A_front L alpha).1 - 5) ((line_A_front L alpha).2 - 5)
      ((line_A_front L alpha).1 + 5) ((line_A_front L alpha).2 + 5) LINE_HP,
   Primitive.ellipse ((line_B_front L alpha).1 - 5) ((line_B_front L alpha).2 - 5)
      ((line_B_front L alpha).1 + 5) ((line_B_front L alpha).2 + 5) LINE_HP,
   Primitive.line [line_A_top L alpha, line_B_top L alpha] LINE_VP,
   Primitive.ellipse ((line_A_top L alpha).1 - 4) ((line_A_top L alpha).2 - 4)
      ((line_A_top L alpha).1 + 4) ((line_A_top L alpha).2 + 4) LINE_VP,
   Primitive.ellipse ((line_B_top L alpha).1 - 4) ((line_B_top L alpha).2 - 4)
      ((line_B_top L alpha).1 + 4) ((line_B_top L alpha).2 + 4) LINE_VP,
   Primitive.line [line_A_front L alpha, line_A_top L alpha] LINE_CONST,
   Primitive.line [line_B_front L alpha, line_B_top L alpha] LINE_CONST,
   Primitive.text ((line_A_front L alpha).1 - 18, (line_A_front L alpha).2 - 26) ("A\x27\x27"),
   Primitive.text ((line_B_front L alpha).1 - 18, (line_B_front L alpha).2 - 26) ("B\x27\x27"),
   Primitive.text ((line_A_top L alpha).1 - 18, (line_A_top L alpha).2 + 8) ("A\x27"),
   Primitive.text ((line_B_top L alpha).1 - 18, (line_B_top L alpha).2 + 8) ("B\x27"),
   Primitive.info ("True length L, apparent lengths (L cos a, L cos b) and apparent angles in both views")]

/-- `draw_line(draw, params)` from cadapp.py. -/
def draw_line (p : LineParams) : List Primitive :=
  line_core (line_L p) (line_alpha p) (line_beta p)

/-- Canonical Lamina request.  A list-valued `size` makes the Python crash at
`float(sizes)` and is therefore not modelled; `size` is a scalar. -/
structure LaminaParams where
  shape : Option String
  size : Option ℝ
  sizes : Option (List ℝ)
  surface_angle : Option ℝ
  edge_angle_to_VP : Option ℝ

def lamina_shape (p : LaminaParams) : String := p.shape.getD "triangle"

/-- `(params.get('sizes') and params.get('sizes')[0]) or 30.0`: a missing or
empty list, or a falsy (zero) head, falls back to 30. -/
def sizes_head_falsy : Option (List ℝ) → ℝ
  | some (x :: _) => if x = 0 then 30 else x
  | _ => 30

/-- `sizes = params.get('size') or (params.get('sizes') and params.get('sizes')[0]) or 30.0`. -/
def lamina_s (p : LaminaParams) : ℝ :=
  match p.size with
  | some v => if v = 0 then sizes_head_falsy p.sizes else v
  | none => sizes_head_falsy p.sizes

def lamina_sa (p : LaminaParams) : ℝ := p.surface_angle.getD 60
def lamina_ea (p : LaminaParams) : ℝ := p.edge_angle_to_VP.getD 45

/-- Scale in `draw_lamina`: `fit_scale_for_box(max(s, 100)*2.2, FRONT_BOX)`. -/
def lamina_scale (s : ℝ) : ℝ := fit_scale_for_box (max s 100 * 2.2) FRONT_BOX

/-- In-plane rotation by `θ` followed by scaling and placement at box center
`c` — the `rx/ry` loop body shared by the lamina top views. -/
def rot_place (c : Pt) (θ scale : ℝ) (q : Pt) : Pt :=
  (c.1 + (q.1 * Real.cos θ - q.2 * Real.sin θ) * scale,
   c.2 + (q.1 * Real.sin θ + q.2 * Real.cos θ) * scale)

/-- Triangle front-view foreshortened height `h_f = (sqrt(3)/2*side) * cos(surface_angle)`
— in mm; the source multiplies only the horizontal extent by the scale. -/
def tri_h_f (s sa : ℝ) : ℝ := Real.sqrt 3 / 2 * s * Real.cos (radians sa)

/-- Triangle front-view vertices of `draw_lamina`. -/
def tri_pts_f (s sa : ℝ) : List Pt :=
  [(center_f.1, center_f.2 - tri_h_f s sa / 2),
   (center_f.1 - s / 2 * lamina_scale s, center_f.2 + tri_h_f s sa / 2),
   (center_f.1 + s / 2 * lamina_scale s, center_f.2 + tri_h_f s sa / 2)]

/-- Triangle top-view vertices: true polygon rotated by `edge_angle`, scaled. -/
def tri_pts_t (s ea : ℝ) : List Pt :=
  (regular_polygon_vertices 3 s).map (rot_place center_t (radians ea) (lamina_scale s))

/-- Triangle branch of `draw_lamina`. -/
def tri_core (s sa ea : ℝ) : List Primitive :=
  [Primitive.line [(tri_pts_f s sa).getD 0 (0, 0), (tri_pts_f s sa).getD 1 (0, 0),
      (tri_pts_f s sa).getD 2 (0, 0), (tri_pts_f s sa).getD 0 (0, 0)] LINE_HP,
   Primitive.line [(tri_pts_t s ea).getD 0 (0, 0), (tri_pts_t s ea).getD 1 (0, 0),
      (tri_pts_t s ea).getD 2 (0, 0), (tri_pts_t s ea).getD 0 (0, 0)] LINE_VP] ++
  (List.range 3).map (fun i =>
    Primitive.line [(tri_pts_f s sa).getD i (0, 0), (tri_pts_t s ea).getD i (0, 0)] LINE_CONST) ++
  [Primitive.info ("Triangle side=_ mm, surface angle=_° to HP, edge rotated _° to VP")]

def rect_w (s : ℝ) : ℝ := s
def rect_h (shape : String) (s : ℝ) : ℝ := if shape = "rectangle" then s * 1.5 else s

/-- Rectangle/square foreshortened front height, again in mm (unscaled). -/
def rect_h_f (shape : String) (s sa : ℝ) : ℝ := rect_h shape s * Real.cos (radians sa)

def rect_leftf (s : ℝ) : ℝ := center_f.1 - rect_w s / 2 * lamina_scale s
def rect_rightf (s : ℝ) : ℝ := center_f.1 + rect_w s / 2 * lamina_scale s
def rect_topf (shape : String) (s sa : ℝ) : ℝ := center_f.2 - rect_h_f shape s sa / 2
def rect_botf (shape : String) (s sa : ℝ) : ℝ := center_f.2 + rect_h_f shape s sa / 2

def rect_corners (shape : String) (s : ℝ) : List Pt :=
  [(-(rect_w s / 2), -(rect_h shape s / 2)), (rect_w s / 2, -(rect_h shape s / 2)),
   (rect_w s / 2, rect_h shape s / 2), (-(rect_w s / 2), rect_h shape s / 2)]

def rect_pts_t (shape : String) (s ea : ℝ) : List Pt :=
  (rect_corners shape s).map (rot_place center_t (radians ea) (lamina_scale s))

def rect_front_pts (shape : String) (s sa : ℝ) : List Pt :=
  [(rect_leftf s, rect_topf shape s sa), (rect_rightf s, rect_topf shape s sa),
   (rect_rightf s, rect_botf shape s sa), (rect_leftf s, rect_botf shape s sa)]

/-- Square/rectangle branch of `draw_lamina`. -/
def rect_core (shape : String) (s sa ea : ℝ) : List Primitive :=
  [Primitive.rect (rect_leftf s) (rect_topf shape s sa) (rect_rightf s) (rect_botf shape s sa)
      LINE_HP,
   Primitive.line (rect_pts_t shape s ea ++ [(rect_pts_t shape s ea).getD 0 (0, 0)]) LINE_VP] ++
  (List.range 4).map (fun i =>
    Primitive.line [(rect_front_pts shape s sa).getD i (0, 0),
      (rect_pts_t shape s ea).getD i (0, 0)] LINE_CONST) ++
  [Primitive.info ("Rectangle _ x _ mm, surface angle=_°")]

def ngon_n (shape : String) : ℤ :=
  if shape = "hexagon" then 6 else if shape = "pentagon" then 5 else 6

def ngon_poly (shape : String) (s : ℝ) : List Pt := regular_polygon_vertices (ngon_n shape) s

/-- Pentagon/hexagon/polygon front view: y foreshortened by `cos(surface_angle)`
and (in this branch, unlike triangle/rectangle) multiplied by the scale. -/
def ngon_pts_f (shape : String) (s sa : ℝ) : List Pt :=
  (ngon_poly shape s).map (fun q =>
    (center_f.1 + q.1 * lamina_scale s,
     center_f.2 + q.2 * Real.cos (radians sa) * lamina_scale s))

def ngon_pts_t (shape : String) (s ea : ℝ) : List Pt :=
  (ngon_poly shape s).map (rot_place center_t (radians ea) (lamina_scale s))

/-- Pentagon/hexagon/polygon branch of `draw_lamina`. -/
def ngon_core (shape : String) (s sa ea : ℝ) : List Primitive :=
  [Primitive.line (ngon_pts_f shape s sa ++ [(ngon_pts_f shape s sa).getD 0 (0, 0)]) LINE_HP,
   Primitive.line (ngon_pts_t shape s ea ++ [(ngon_pts_t shape s ea).getD 0 (0, 0)]) LINE_VP] ++
  (List.range (ngon_pts_f shape s sa).length).map (fun i =>
    Primitive.line [(ngon_pts_f shape s sa).getD i (0, 0),
      (ngon_pts_t shape s ea).getD i (0, 0)] LINE_CONST) ++
  [Primitive.info ("_ side=_ mm, surface angle=_°")]

/-- Circle branch of `draw_lamina` (`r = s/2`). -/
def circle_core (s sa : ℝ) : List Primitive :=
  let r := s / 2
  [Primitive.ellipse (center_f.1 - r * lamina_scale s)
      (center_f.2 - r * Real.cos (radians sa) * lamina_scale s)
      (center_f.1 + r * lamina_scale s)
      (center_f.2 + r * Real.cos (radians sa) * lamina_scale s) LINE_HP,
   Primitive.ellipse (center_t.1 - r * lamina_scale s) (center_t.2 - r * lamina_scale s)
      (center_t.1 + r * lamina_scale s) (center_t.2 + r * lamina_scale s) LINE_VP,
   Primitive.line [center_f, center_t] LINE_CONST,
   Primitive.info ("Circle diameter=_ mm, surface angle=_°")]

/-- The branch dispatch of `draw_lamina` on the resolved shape string. -/
def draw_lamina_core (shape : String) (s sa ea : ℝ) : List Primitive :=
  if shape = "triangle" then tri_core s sa ea
  else if shape = "square" ∨ shape = "rectangle" then rect_core shape s sa ea
  else if shape = "pentagon" ∨ shape = "hexagon" ∨ shape = "polygon" then ngon_core shape s sa ea
  else if shape = "circle" then circle_core s sa
  else [Primitive.info ("Shape not recognized for lamina.")]

/-- `draw_lamina(draw, params)` from cadapp.py. -/
def draw_lamina (p : LaminaParams) : List Primitive :=
  draw_lamina_core (lamina_shape p) (lamina_s p) (lamina_sa p) (lamina_ea p)

/-- Canonical Solid request: `solid_type` (default `prism`) and positional
`sizes` (default empty list). -/
structure SolidParams where
  solid_type : Option String
  sizes : List ℝ

def solid_typ (p : SolidParams) : String := p.solid_type.getD "prism"

/-- Cube branch of `draw_prism`. -/
def cube_core (sizes : List ℝ) : List Primitive :=
  let a : ℝ := match sizes with | [] => 50 | x :: _ => x
  let scale := fit_scale_for_box (a * 3) FRONT_BOX
  let l := a * scale / 2
  [Primitive.info ("Cube side _ mm"),
   Primitive.rect (center_f.1 - l) (center_f.2 - l) (center_f.1 + l) (center_f.2 + l) LINE_HP,
   Primitive.rect (center_t.1 - l) (center_t.2 - l) (center_t.1 + l) (center_t.2 + l) LINE_VP]

/-- Cuboid branch of `draw_prism`. -/
def cuboid_core (sizes : List ℝ) : List Primitive :=
  let wdh : ℝ × ℝ × ℝ := match sizes with | w :: d :: h :: _ => (w, d, h) | _ => (80, 50, 60)
  let scale := fit_scale_for_box (max (max wdh.1 wdh.2.1) wdh.2.2 * 3) FRONT_BOX
  let lw := wdh.1 * scale / 2
  let lh := wdh.2.2 * scale / 2
  let ld := wdh.2.1 * scale / 2
  [Primitive.info ("Cuboid _ x _ base, height _ mm"),
   Primitive.rect (center_f.1 - lw) (center_f.2 - lh) (center_f.1 + lw) (center_f.2 + lh) LINE_HP,
   Primitive.rect (center_t.1 - lw) (center_t.2 - ld) (center_t.1 + lw) (center_t.2 + ld) LINE_VP]

/-- Cylinder branch of `draw_prism`. -/
def cylinder_core (sizes : List ℝ) : List Primitive :=
  let dh : ℝ × ℝ := match sizes with | d :: h :: _ => (d, h) | _ => (50, 80)
  let scale := fit_scale_for_box (max dh.1 dh.2 * 2.5) FRONT_BOX
  let r := dh.1 / 2 * scale
  [Primitive.info ("Cylinder D=_ mm, height=_ mm"),
   Primitive.ellipse (center_f.1 - r) (center_f.2 - dh.2 * scale / 2 - r / 3)
      (center_f.1 + r) (center_f.2 - dh.2 * scale / 2 + r / 3) LINE_HP,
   Primitive.rect (center_f.1 - r) (center_f.2 - dh.2 * scale / 2 + r / 3)
      (center_f.1 + r) (center_f.2 + dh.2 * scale / 2 - r / 3) LINE_HP,
   Primitive.ellipse (center_f.1 - r) (center_f.2 + dh.2 * scale / 2 - r / 3)
      (center_f.1 + r) (center_f.2 + dh.2 * scale / 2 + r / 3) LINE_HP,
   Primitive.ellipse (center_t.1 - r) (center_t.2 - r) (center_t.1 + r) (center_t.2 + r) LINE_VP]

/-- Cone branch of `draw_prism` (`draw.polygon(..., outline=WHITE)`). -/
def cone_core (sizes : List ℝ) : List Primitive :=
  let dh : ℝ × ℝ := match sizes with | d :: h :: _ => (d, h) | _ => (50, 80)
  let scale := fit_scale_for_box (max dh.1 dh.2 * 3) FRONT_BOX
  let r := dh.1 / 2 * scale
  [Primitive.info ("Cone D=_ mm, height=_ mm"),
   Primitive.polygon [(center_f.1 - r, center_f.2 + dh.2 * scale / 2),
      (center_f.1 + r, center_f.2 + dh.2 * scale / 2), (center_f.1, center_f.2 - dh.2 * scale / 2)],
   Primitive.ellipse (center_t.1 - r) (center_t.2 - r) (center_t.1 + r) (center_t.2 + r) LINE_VP]

/-- Pyramid branch of `draw_prism`. -/
def pyramid_core (sizes : List ℝ) : List Primitive :=
  let bh : ℝ × ℝ := match sizes with | b :: h :: _ => (b, h) | _ => (60, 80)
  let scale := fit_scale_for_box (bh.1 * 3) FRONT_BOX
  let b := bh.1 * scale / 2
  [Primitive.info ("Pyramid base=_ mm, height=_ mm"),
   Primitive.line [(center_t.1 - b, center_t.2 - b), (center_t.1 + b, center_t.2 - b),
      (center_t.1 + b, center_t.2 + b), (center_t.1 - b, center_t.2 + b),
      (center_t.1 - b, center_t.2 - b)] LINE_VP,
   Primitive.polygon [(center_f.1 - b, center_f.2 + b), (center_f.1 + b, center_f.2 + b),
      (center_f.1, center_f.2 - bh.2 * scale)]]

/-- Prism size resolution: `[n, side, height]`, `[side, height]` (n=4),
`[side]` (n=4, height=1.2*side) or the `4/50/80` defaults.  Python `int()`
truncates toward zero; `Int.floor` agrees on the nonnegative counts used, and
a negative count yields no development faces and a clamped 3-gon either way. -/
def prism_nsh (sizes : List ℝ) : ℤ × ℝ × ℝ :=
  match sizes with
  | n :: s :: h :: _ => (⌊n⌋, s, h)
  | [s, h] => (4, s, h)
  | [s] => (4, s, s * 1.2)
  | [] => (4, 50, 80)

/-- `fit_scale_for_box(max(side*2, height)*3, FRONT_BOX)` in the prism branch. -/
def prism_scale (sizes : List ℝ) : ℝ :=
  fit_scale_for_box (max ((prism_nsh sizes).2.1 * 2) (prism_nsh sizes).2.2 * 3) FRONT_BOX

def prism_poly (sizes : List ℝ) : List Pt :=
  regular_polygon_vertices (prism_nsh sizes).1 (prism_nsh sizes).2.1

/-- Prism top-view (plan) pixel vertices. -/
def prism_pts_t (sizes : List ℝ) : List Pt :=
  (prism_poly sizes).map (fun q =>
    (center_t.1 + q.1 * prism_scale sizes, center_t.2 + q.2 * prism_scale sizes))

/-- Python `max()` over a list (only applied to nonempty lists in the source). -/
def listMax : List ℝ → ℝ
  | [] => 0
  | x :: xs => xs.foldl max x

/-- Python `min()` over a list (only applied to nonempty lists in the source). -/
def listMin : List ℝ → ℝ
  | [] => 0
  | x :: xs => xs.foldl min x

/-- `width_mm = max(xs) - min(xs)` over the plan polygon x-coordinates. -/
def prism_width_mm (sizes : List ℝ) : ℝ :=
  listMax ((prism_poly sizes).map Prod.fst) - listMin ((prism_poly sizes).map Prod.fst)

def prism_w_px (sizes : List ℝ) : ℝ := prism_width_mm sizes * prism_scale sizes
def prism_h_px (sizes : List ℝ) : ℝ := (prism_nsh sizes).2.2 * prism_scale sizes

/-- The prism front view: bounding rectangle of plan width and given height. -/
def prism_front_rect (sizes : List ℝ) : Primitive :=
  Primitive.rect (center_f.1 - prism_w_px sizes / 2) (center_f.2 - prism_h_px sizes / 2)
    (center_f.1 + prism_w_px sizes / 2) (center_f.2 + prism_h_px sizes / 2) LINE_HP

def prism_face_w (sizes : List ℝ) : ℝ := (prism_nsh sizes).2.1 * prism_scale sizes
def prism_face_h (sizes : List ℝ) : ℝ := (prism_nsh sizes).2.2 * prism_scale sizes

/-- `x0 = dev_x + i*(face_w + 6)` with `dev_x = INFO_BOX[0] + 20`. -/
def prism_dev_x0 (sizes : List ℝ) (i : ℕ) : ℝ :=
  (INFO_BOX.left + 20) + i * (prism_face_w sizes + 6)

/-- Development face `i`: `side*scale × height*scale` rectangle at `(x0, dev_y)`,
`dev_y = FRONT_BOX[1]`. -/
def prism_dev_rect (sizes : List ℝ) (i : ℕ) : Primitive :=
  Primitive.rect (prism_dev_x0 sizes i) FRONT_BOX.top
    (prism_dev_x0 sizes i + prism_face_w sizes) (FRONT_BOX.top + prism_face_h sizes) LINE_HP

/-- Prism branch of `draw_prism`: info, top plan polygon, front bounding
rectangle, then `n` development faces. -/
def prism_core (sizes : List ℝ) : List Primitive :=
  [Primitive.info ("Regular prism n=_, side=_ mm, height=_ mm; lateral development shown below"),
   Primitive.line (prism_pts_t sizes ++ [(prism_pts_t sizes).getD 0 (0, 0)]) LINE_VP,
   prism_front_rect sizes] ++
  (List.range (prism_nsh sizes).1.toNat).map (prism_dev_rect sizes)

/-- The branch dispatch of `draw_prism` on the resolved solid type. -/
def draw_prism_core (typ : String) (sizes : List ℝ) : List Primitive :=
  if typ = "cube" then cube_core sizes
  else if typ = "cuboid" then cuboid_core sizes
  else if typ = "cylinder" then cylinder_core sizes
  else if typ = "cone" then cone_core sizes
  else if typ = "pyramid" then pyramid_core sizes
  else if typ = "prism" then prism_core sizes
  else [Primitive.info ("Solid type not yet implemented.")]

/-- `draw_prism(draw, params)` from cadapp.py. -/
def draw_prism (p : SolidParams) : List Primitive :=
  draw_prism_core (solid_typ p) p.sizes

lemma constructionSegs_append (l₁ l₂ : List Primitive) :
    constructionSegs (l₁ ++ l₂) = constructionSegs l₁ ++ constructionSegs l₂ := by
  induction l₁ with
  | nil => rfl
  | cons p rest ih =>
    cases p with
    | line pts w =>
      by_cases hw : w = 1
      · simp [constructionSegs, hw, ih]
      · simp [constructionSegs, hw, ih]
    | rect a b c d w => simp [constructionSegs, ih]
    | ellipse a b c d w => simp [constructionSegs, ih]
    | polygon pts => simp [constructionSegs, ih]
    | text pos s => simp [constructionSegs, ih]
    | info s => simp [constructionSegs, ih]

lemma constructionSegs_proj_map (f g : ℕ → Pt) (l : List ℕ) :
    constructionSegs (l.map (fun i => Primitive.line [f i, g i] LINE_CONST)) =
      l.map (fun i => [f i, g i]) := by
  induction l with
  | nil => rfl
  | cons a t ih =>
    simp only [LINE_CONST] at ih
    simp [constructionSegs, LINE_CONST, ih]

lemma constructionSegs_eq_nil (l : List Primitive)
    (h : ∀ x ∈ l, isConstruction x = false) : constructionSegs l = [] := by
  induction l with
  | nil => rfl
  | cons p rest ih =>
    have hp := h p (List.mem_cons_self p rest)
    have hrest : ∀ x ∈ rest, isConstruction x = false := fun x hx =>
      h x (List.mem_cons_of_mem _ hx)
    cases p with
    | line pts w =>
      have hw : w ≠ 1 := by simpa [isConstruction] using hp
      simp [constructionSegs, hw, ih hrest]
    | rect a b c d w => simp [constructionSegs, ih hrest]
    | ellipse a b c d w => simp [constructionSegs, ih hrest]
    | polygon pts => simp [constructionSegs, ih hrest]
    | text pos s => simp [constructionSegs, ih hrest]
    | info s => simp [constructionSegs, ih hrest]

lemma constructionSegs_prism_core (sizes : List ℝ) :
    constructionSegs (prism_core sizes) = [] := by
  unfold prism_core
  rw [constructionSegs_append]
  have h1 : constructionSegs
      [Primitive.info ("Regular prism n=_, side=_ mm, height=_ mm; lateral development shown below"),
       Primitive.line (prism_pts_t sizes ++ [(prism_pts_t sizes).getD 0 (0, 0)]) LINE_VP,
       prism_front_rect sizes] = [] := by
    simp [constructionSegs, prism_front_rect, LINE_VP]
  have h2 : constructionSegs
      ((List.range (prism_nsh sizes).1.toNat).map (prism_dev_rect sizes)) = [] := by
    apply constructionSegs_eq_nil
    intro x hx
    obtain ⟨i, _, rfl⟩ := List.mem_map.1 hx
    simp [prism_dev_rect, isConstruction]
  rw [h1, h2]
  rfl

lemma constructionSegs_solid (typ : String) (sizes : List ℝ) :
    constructionSegs (draw_prism_core typ sizes) = [] := by
  unfold draw_prism_core
  split
  · simp [cube_core, constructionSegs]
  · split
    · simp [cuboid_core, constructionSegs]
    · split
      · simp [cylinder_core, constructionSegs, LINE_HP, LINE_VP]
      · split
        · simp [cone_core, constructionSegs, LINE_VP]
        · split
          · simp [pyramid_core, constructionSegs, LINE_VP]
          · split
            · exact constructionSegs_prism_core sizes
            · simp [constructionSegs]

/-- Claim C2 (amended): Point, Line and Lamina artifacts emit exactly one thin
Construction segment per index-paired front/top vertex pair (the circle lamina
links the two view centers); Solid artifacts (`draw_prism`, all branches)
emit no Construction segment at all — no projector joins their views. -/
theorem claim_C2_projectors :
    (∀ p : PointParams, constructionSegs (draw_point p) =
      [[point_front (point_infront p) (point_above p),
        point_top (point_infront p) (point_above p)]]) ∧
    (∀ p : LineParams, constructionSegs (draw_line p) =
      [[line_A_front (line_L p) (line_alpha p), line_A_top (line_L p) (line_alpha p)],
       [line_B_front (line_L p) (line_alpha p), line_B_top (line_L p) (line_alpha p)]]) ∧
    (∀ p : LaminaParams, lamina_shape p = "triangle" →
      constructionSegs (draw_lamina p) = (List.range 3).map (fun i =>
        [(tri_pts_f (lamina_s p) (lamina_sa p)).getD i (0, 0),
         (tri_pts_t (lamina_s p) (lamina_ea p)).getD i (0, 0)])) ∧
    (∀ p : LaminaParams, lamina_shape p = "square" ∨ lamina_shape p = "rectangle" →
      constructionSegs (draw_lamina p) = (List.range 4).map (fun i =>
        [(rect_front_pts (lamina_shape p) (lamina_s p) (lamina_sa p)).getD i (0, 0),
         (rect_pts_t (lamina_shape p) (lamina_s p) (lamina_ea p)).getD i (0, 0)])) ∧
    (∀ p : LaminaParams,
      lamina_shape p = "pentagon" ∨ lamina_shape p = "hexagon" ∨ lamina_shape p = "polygon" →
      constructionSegs (draw_lamina p) =
        (List.range (ngon_pts_f (lamina_shape p) (lamina_s p) (lamina_sa p)).length).map
          (fun i => [(ngon_pts_f (lamina_shape p) (lamina_s p) (lamina_sa p)).getD i (0, 0),
            (ngon_pts_t (lamina_shape p) (lamina_s p) (lamina_ea p)).getD i (0, 0)])) ∧
    (∀ p : LaminaParams, lamina_shape p = "circle" →
      constructionSegs (draw_lamina p) = [[center_f, center_t]]) ∧
    ∀ q : SolidParams, constructionSegs (draw_prism q) = [] := by
  refine ⟨?_, ?_, ?_, ?_, ?_, ?_, ?_⟩
  · intro p
    simp [draw_point, point_core, constructionSegs, LINE_HP, LINE_VP, LINE_CONST]
  · intro p
    simp [draw_line, line_core, constructionSegs, LINE_HP, LINE_VP, LINE_CONST]
  · intro p h
    rw [draw_lamina, h]
    rw [show draw_lamina_core "triangle" (lamina_s p) (lamina_sa p) (lamina_ea p) =
      tri_core (lamina_s p) (lamina_sa p) (lamina_ea p) by simp [draw_lamina_core]]
    unfold tri_core
    rw [constructionSegs_append, constructionSegs_append, constructionSegs_proj_map]
    simp [constructionSegs, LINE_HP, LINE_VP]
  · intro p h
    have hrect : draw_lamina_core (lamina_shape p) (lamina_s p) (lamina_sa p) (lamina_ea p) =
        rect_core (lamina_shape p) (lamina_s p) (lamina_sa p) (lamina_ea p) := by
      rcases h with h | h <;> rw [h] <;> simp [draw_lamina_core]
    rw [draw_lamina, hrect]
    unfold rect_core
    rw [constructionSegs_append, constructionSegs_append, constructionSegs_proj_map]
    simp [constructionSegs, LINE_HP, LINE_VP]
  · intro p h
    have hngon : draw_lamina_core (lamina_shape p) (lamina_s p) (lamina_sa p) (lamina_ea p) =
        ngon_core (lamina_shape p) (lamina_s p) (lamina_sa p) (lamina_ea p) := by
      rcases h with h | h | h <;> rw [h] <;> simp [draw_lamina_core]
    rw [draw_lamina, hngon]
    unfold ngon_core
    rw [constructionSegs_append, constructionSegs_append, constructionSegs_proj_map]
    simp [constructionSegs, LINE_HP, LINE_VP]
  · intro p h
    rw [draw_lamina, h]
    rw [show draw_lamina_core "circle" (lamina_s p) (lamina_sa p) (lamina_ea p) =
      circle_core (lamina_s p) (lamina_sa p) by simp [draw_lamina_core]]
    simp [circle_core, constructionSegs, LINE_HP, LINE_VP, LINE_CONST]
  · intro q
    rw [draw_prism]
    exact constructionSegs_solid (solid_typ q) q.sizes

theorem claim_C2_projectors_witness :
    constructionSegs (draw_lamina ⟨some "triangle", some 30, none, some 60, none⟩) =
      (List.range 3).map (fun i =>
        [(tri_pts_f (lamina_s ⟨some "triangle", some 30, none, some 60, none⟩)
            (lamina_sa ⟨some "triangle", some 30, none, some 60, none⟩)).getD i (0, 0),
         (tri_pts_t (lamina_s ⟨some "triangle", some 30, none, some 60, none⟩)
            (lamina_ea ⟨some "triangle", some 30, none, some 60, none⟩)).getD i (0, 0)]) ∧
    constructionSegs (draw_lamina ⟨some "circle", some 40, none, none, none⟩) =
      [[center_f, center_t]] :=
  ⟨claim_C2_projectors.2.2.1 _ rfl, claim_C2_projectors.2.2.2.2.2.1 _ rfl⟩

/-- Claim C2 counterexample: for `Solid{type=prism, sizes=[5,30,80]}` the top
view has 5 outline vertices, yet the artifact contains not a single
Construction segment — no projector joins the paired vertices, contradicting
the claim that Solid requests emit one projector per paired vertex. -/
theorem claim_C2_counterexample :
    (prism_pts_t [5, 30, 80]).length = 5 ∧
    constructionSegs (draw_prism ⟨some "prism", [5, 30, 80]⟩) = [] := by
  constructor
  · have h5 : (⌊(5 : ℝ)⌋ : ℤ) = 5 := by
      rw [show ((5 : ℝ)) = ((5 : ℤ) : ℝ) by norm_num, Int.floor_intCast]
    simp [prism_pts_t, prism_poly, prism_nsh, regular_polygon_vertices, h5]
  · rw [draw_prism]
    exact constructionSegs_solid _ _

/-- Claim C4 (amended): the Geometry Builder performs no numeric validation at
all: every Line request — including out-of-domain ones such as a negative true
length — is rendered in full, emitting the complete 13-primitive artifact;
nothing fails and nothing is withheld. -/
theorem claim_C4_no_validation (p : LineParams) : (draw_line p).length = 13 := by
  simp [draw_line, line_core]

theorem claim_C4_no_validation_witness :
    (draw_line ⟨none, none, none⟩).length = 13 :=
  claim_C4_no_validation ⟨none, none, none⟩

/-- Claim C4 counterexample: a Line request with negative true length `-50`
is not rejected: the full 13-primitive artifact is emitted (in particular the
output is not empty), so nothing "fails fast" and geometry is rendered. -/
theorem claim_C4_counterexample :
    draw_line ⟨some (-50), none, none⟩ ≠ [] ∧
    (draw_line ⟨some (-50), none, none⟩).length = 13 := by
  constructor
  · simp [draw_line, line_core]
  · simp [draw_line, line_core]

/-- Claim C5: an unrecognized lamina `shape` or `solid_type` is not a hard
failure: the emitted artifact is exactly the single diagnostic info-panel
message, with no geometry primitives. -/
theorem claim_C5_unrecognized_diagnostic :
    (∀ p : LaminaParams,
      lamina_shape p ∉ (["triangle", "square", "rectangle", "pentagon", "hexagon",
        "polygon", "circle"] : List String) →
      draw_lamina p = [Primitive.info ("Shape not recognized for lamina.")]) ∧
    ∀ q : SolidParams,
      solid_typ q ∉ (["cube", "cuboid", "cylinder", "cone", "pyramid", "prism"] : List String) →
      draw_prism q = [Primitive.info ("Solid type not yet implemented.")] := by
  constructor
  · intro p h
    simp only [List.mem_cons, List.not_mem_nil, or_false] at h
    push_neg at h
    obtain ⟨h1, h2, h3, h4, h5, h6, h7⟩ := h
    simp [draw_lamina, draw_lamina_core, h1, h2, h3, h4, h5, h6, h7]
  · intro q h
    simp only [List.mem_cons, List.not_mem_nil, or_false] at h
    push_neg at h
    obtain ⟨h1, h2, h3, h4, h5, h6⟩ := h
    simp [draw_prism, draw_prism_core, h1, h2, h3, h4, h5, h6]

theorem claim_C5_unrecognized_diagnostic_witness :
    draw_lamina ⟨some "rhombus", none, none, none, none⟩ =
      [Primitive.info ("Shape not recognized for lamina.")] ∧
    draw_prism ⟨some "sphere", []⟩ =
      [Primitive.info ("Solid type not yet implemented.")] :=
  ⟨claim_C5_unrecognized_diagnostic.1 _ (by decide),
   claim_C5_unrecognized_diagnostic.2 _ (by decide)⟩

/-- Claim C10: at the interface of `draw_line` and `draw_lamina`, an attribute
supplied as exactly `0` (or `None`) is indistinguishable from an absent one:
the falsy-`or` resolution replaces it with the per-kind default
(`true_length` 80 mm, `angle_hp` 30°, `angle_vp` 45°, lamina size 30 mm), so
the artifact for a zeroed attribute equals the artifact with it absent. -/
theorem claim_C10_falsy_defaults :
    (∀ a b : Option ℝ, draw_line ⟨some 0, a, b⟩ = draw_line ⟨none, a, b⟩) ∧
    (∀ L b : Option ℝ, draw_line ⟨L, some 0, b⟩ = draw_line ⟨L, none, b⟩) ∧
    (∀ L a : Option ℝ, draw_line ⟨L, a, some 0⟩ = draw_line ⟨L, a, none⟩) ∧
    (∀ (sh : Option String) (szs : Option (List ℝ)) (sa ea : Option ℝ),
      draw_lamina ⟨sh, some 0, szs, sa, ea⟩ = draw_lamina ⟨sh, none, szs, sa, ea⟩) ∧
    line_L ⟨some 0, none, none⟩ = 80 ∧ line_alpha ⟨none, some 0, none⟩ = 30 ∧
    line_beta ⟨none, none, some 0⟩ = 45 ∧ lamina_s ⟨none, some 0, none, none, none⟩ = 30 := by
  refine ⟨?_, ?_, ?_, ?_, ?_, ?_, ?_, ?_⟩
  · intro a b
    simp [draw_line, line_L, line_alpha, line_beta, orDefault]
  · intro L b
    simp [draw_line, line_L, line_alpha, line_beta, orDefault]
  · intro L a
    simp [draw_line, line_L, line_alpha, line_beta, orDefault]
  · intro sh szs sa ea
    simp [draw_lamina, lamina_shape, lamina_s, lamina_sa, lamina_ea]
  · simp [line_L, orDefault]
  · simp [line_alpha, orDefault]
  · simp [line_beta, orDefault]
  · simp [lamina_s, sizes_head_falsy]

theorem claim_C10_falsy_defaults_witness :
    draw_line ⟨some 0, none, none⟩ = draw_line ⟨none, none, none⟩ :=
  claim_C10_falsy_defaults.1 none none

lemma rot_place_pdist (c : Pt) (θ s : ℝ) (hs : 0 ≤ s) (a b : Pt) :
    pdist (rot_place c θ s a) (rot_place c θ s b) = s * pdist a b := by
  unfold pdist rot_place
  have key : (c.1 + (a.1 * Real.cos θ - a.2 * Real.sin θ) * s -
      (c.1 + (b.1 * Real.cos θ - b.2 * Real.sin θ) * s)) ^ 2 +
      (c.2 + (a.1 * Real.sin θ + a.2 * Real.cos θ) * s -
      (c.2 + (b.1 * Real.sin θ + b.2 * Real.cos θ) * s)) ^ 2 =
      s ^ 2 * ((a.1 - b.1) ^ 2 + (a.2 - b.2) ^ 2) := by
    linear_combination (s ^ 2 * ((a.1 - b.1) ^ 2 + (a.2 - b.2) ^ 2)) *
      Real.sin_sq_add_cos_sq θ
  rw [key, Real.sqrt_mul (sq_nonneg s), Real.sqrt_sq hs]

lemma scale_place_pdist (c : Pt) (s : ℝ) (hs : 0 ≤ s) (a b : Pt) :
    pdist (c.1 + a.1 * s, c.2 + a.2 * s) (c.1 + b.1 * s, c.2 + b.2 * s) = s * pdist a b := by
  unfold pdist
  have key : (c.1 + a.1 * s - (c.1 + b.1 * s)) ^ 2 + (c.2 + a.2 * s - (c.2 + b.2 * s)) ^ 2 =
      s ^ 2 * ((a.1 - b.1) ^ 2 + (a.2 - b.2) ^ 2) := by ring
  rw [key, Real.sqrt_mul (sq_nonneg s), Real.sqrt_sq hs]

lemma center_f_eval : center_f = (350, 233) := by
  simp only [center_f, FRONT_BOX, CANVAS_W, CANVAS_H, MARGIN, XY_Y]
  norm_num

lemma center_t_eval : center_t = (350, 667) := by
  simp only [center_t, TOP_BOX, CANVAS_W, CANVAS_H, MARGIN, XY_Y]
  norm_num

lemma point_scale_30_30 : point_scale 30 30 = 187 / 100 := by
  simp only [point_scale, fit_scale_for_box, FRONT_BOX, CANVAS_W, CANVAS_H, MARGIN, XY_Y]
  norm_num [max_def, min_def]

lemma point_scale_60_30 : point_scale 60 30 = 187 / 100 := by
  simp only [point_scale, fit_scale_for_box, FRONT_BOX, CANVAS_W, CANVAS_H, MARGIN, XY_Y]
  norm_num [max_def, min_def]

/-- Claim C6 evaluated at the failing input: `draw_point` does use front = `(x, z)`
and top = `(x, y)` (the marker formulas below use `above` only in the front box
and `infront` only in the top box), but the `y` sign convention is the opposite
of the claim: raising `infront` from 30 to 60 moves the top-view marker from
pixel y 610.9 to 554.8, i.e. *closer* to the reference line `XY_Y = 450`
(though still below it), not farther below. -/
theorem claim_C6_sign_convention_bug :
    point_front 30 30 = (350, 233 - 30 * (187 / 100)) ∧
    point_top 30 30 = (350, 667 - 30 * (187 / 100)) ∧
    point_top 60 30 = (350, 667 - 60 * (187 / 100)) ∧
    (point_top 60 30).2 - XY_Y < (point_top 30 30).2 - XY_Y ∧
    XY_Y < (point_top 60 30).2 := by
  have h1 : point_front 30 30 = (350, 233 - 30 * (187 / 100)) := by
    rw [point_front, point_scale_30_30]
    simp only [transform_to_box_coords, FRONT_BOX, CANVAS_W, CANVAS_H, MARGIN, XY_Y]
    norm_num
  have h2 : point_top 30 30 = (350, 667 - 30 * (187 / 100)) := by
    rw [point_top, point_scale_30_30]
    simp only [transform_to_box_coords, TOP_BOX, CANVAS_W, CANVAS_H, MARGIN, XY_Y]
    norm_num
  have h3 : point_top 60 30 = (350, 667 - 60 * (187 / 100)) := by
    rw [point_top, point_scale_60_30]
    simp only [transform_to_box_coords, TOP_BOX, CANVAS_W, CANVAS_H, MARGIN, XY_Y]
    norm_num
  refine ⟨h1, h2, h3, ?_, ?_⟩
  · rw [h2, h3]
    simp only [XY_Y, CANVAS_H]
    norm_num
  · rw [h3]
    simp only [XY_Y, CANVAS_H]
    norm_num

lemma lamina_scale_30 : lamina_scale 30 = 17 / 10 := by
  simp only [lamina_scale, fit_scale_for_box, FRONT_BOX, CANVAS_W, CANVAS_H, MARGIN, XY_Y]
  norm_num [max_def, min_def]

lemma tri_h_f_30_60 : tri_h_f 30 60 = 15 / 2 * Real.sqrt 3 := by
  have h60 : radians 60 = Real.pi / 3 := by unfold radians; ring
  unfold tri_h_f
  rw [h60, Real.cos_pi_div_three]
  ring

lemma regular_polygon_vertices_3 (s : ℝ) :
    regular_polygon_vertices 3 s = (List.range 3).map (poly_vertex 3 s) := by
  simp [regular_polygon_vertices]

/-- Claim C3 evaluated at `Lamina{shape=triangle, size=30, surface_angle=60}`:
the top view is the true triangle at the derived scale `17/10` (consecutive
top-view pixel vertices are `30 * 17/10` apart) and the front-view horizontal
extent is also scaled (`30 * 17/10` px), but the front-view *vertical* pixel
extent is `tri_h_f 30 60 = 7.5*sqrt(3) ≈ 12.99` — the millimetre value used
directly as pixels, never multiplied by the scale — which differs from the
claimed `12.99 mm × scale`. -/
theorem claim_C3_front_scale_bug :
    lamina_scale 30 = 17 / 10 ∧
    ((tri_pts_f 30 60).getD 1 (0, 0)).2 - ((tri_pts_f 30 60).getD 0 (0, 0)).2 =
      tri_h_f 30 60 ∧
    tri_h_f 30 60 = 15 / 2 * Real.sqrt 3 ∧
    ((tri_pts_f 30 60).getD 2 (0, 0)).1 - ((tri_pts_f 30 60).getD 1 (0, 0)).1 =
      30 * (17 / 10) ∧
    pdist ((tri_pts_t 30 45).getD 0 (0, 0)) ((tri_pts_t 30 45).getD 1 (0, 0)) =
      30 * (17 / 10) ∧
    tri_h_f 30 60 ≠ tri_h_f 30 60 * (17 / 10) := by
  have hsqrt : (0 : ℝ) < Real.sqrt 3 := Real.sqrt_pos.2 (by norm_num)
  refine ⟨lamina_scale_30, ?_, tri_h_f_30_60, ?_, ?_, ?_⟩
  · simp [tri_pts_f]
  · simp [tri_pts_f, lamina_scale_30]
    ring
  · have hmap : tri_pts_t 30 45 = (List.range 3).map
        (fun i => rot_place center_t (radians 45) (lamina_scale 30) (poly_vertex 3 30 i)) := by
      rw [tri_pts_t, regular_polygon_vertices_3, List.map_map]
      rfl
    rw [hmap, getD_range_map _ _ _ (by norm_num), getD_range_map _ _ _ (by norm_num),
      rot_place_pdist _ _ _ (by rw [lamina_scale_30]; norm_num)]
    have hc := poly_vertex_consec_dist 3 (by norm_num) 30 (by norm_num) 0
    norm_num at hc
    rw [hc, lamina_scale_30]
    norm_num
  · rw [tri_h_f_30_60]
    intro heq
    nlinarith [hsqrt]

lemma prism_nsh_53080 : prism_nsh [(5 : ℝ), 30, 80] = (5, 30, 80) := by
  have h5 : (⌊(5 : ℝ)⌋ : ℤ) = 5 := by
    rw [show ((5 : ℝ)) = ((5 : ℤ) : ℝ) by norm_num, Int.floor_intCast]
  simp [prism_nsh, h5]

lemma prism_scale_53080 : prism_scale [(5 : ℝ), 30, 80] = 187 / 120 := by
  rw [prism_scale, prism_nsh_53080]
  simp only [fit_scale_for_box, FRONT_BOX, CANVAS_W, CANVAS_H, MARGIN, XY_Y]
  norm_num [max_def, min_def]

lemma prism_poly_53080 :
    prism_poly [(5 : ℝ), 30, 80] = (List.range 5).map (poly_vertex 5 30) := by
  rw [prism_poly, prism_nsh_53080]
  simp [regular_polygon_vertices]

/-- Claim C7 (amended) for `Solid{type=prism, sizes=[5,30,80]}`: the artifact
is the prism branch; the top view is the regular pentagon of side 30 mm at the
single derived scale `187/120` (5 vertices, consecutive pixel distance
`30*(187/120)`); the front view is a rectangle of width = the pentagon's plan
bounding-box width at that scale and height `80*(187/120)`; and exactly 5
congruent `30*scale × 80*scale` development faces are emitted, all lying to
the right of both view boxes (left edges beyond x = 664) — but separated by a
uniform 6-pixel gutter rather than placed edge-to-edge. -/
theorem claim_C7_prism :
    draw_prism ⟨some "prism", [5, 30, 80]⟩ = prism_core [5, 30, 80] ∧
    prism_scale [5, 30, 80] = 187 / 120 ∧
    (prism_pts_t [5, 30, 80]).length = 5 ∧
    (∀ i, i < 5 → pdist ((prism_pts_t [5, 30, 80]).getD i (0, 0))
      ((prism_pts_t [5, 30, 80]).getD ((i + 1) % 5) (0, 0)) = 30 * (187 / 120)) ∧
    prism_h_px [5, 30, 80] = 80 * (187 / 120) ∧
    prism_w_px [5, 30, 80] = prism_width_mm [5, 30, 80] * (187 / 120) ∧
    prism_front_rect [5, 30, 80] = Primitive.rect
      (350 - prism_w_px [5, 30, 80] / 2) (233 - 80 * (187 / 120) / 2)
      (350 + prism_w_px [5, 30, 80] / 2) (233 + 80 * (187 / 120) / 2) LINE_HP ∧
    ((List.range (prism_nsh [5, 30, 80]).1.toNat).map (prism_dev_rect [5, 30, 80])).length = 5 ∧
    (∀ i : ℕ, prism_dev_rect [5, 30, 80] i = Primitive.rect
      (prism_dev_x0 [5, 30, 80] i) 36
      (prism_dev_x0 [5, 30, 80] i + 30 * (187 / 120)) (36 + 80 * (187 / 120)) LINE_HP) ∧
    (∀ i : ℕ, (664 : ℝ) < prism_dev_x0 [5, 30, 80] i) ∧
    ∀ i : ℕ, prism_dev_x0 [5, 30, 80] (i + 1) =
      prism_dev_x0 [5, 30, 80] i + 30 * (187 / 120) + 6 := by
  have hface_w : prism_face_w [(5 : ℝ), 30, 80] = 30 * (187 / 120) := by
    rw [prism_face_w, prism_nsh_53080, prism_scale_53080]
  have hface_h : prism_face_h [(5 : ℝ), 30, 80] = 80 * (187 / 120) := by
    rw [prism_face_h, prism_nsh_53080, prism_scale_53080]
  have hdevx : ∀ i : ℕ, prism_dev_x0 [(5 : ℝ), 30, 80] i = 730 + i * (30 * (187 / 120) + 6) := by
    intro i
    rw [prism_dev_x0, hface_w]
    simp only [INFO_BOX, CANVAS_W, MARGIN]
    norm_num
  refine ⟨?_, prism_scale_53080, ?_, ?_, ?_, ?_, ?_, ?_, ?_, ?_, ?_⟩
  · simp +decide [draw_prism, draw_prism_core, solid_typ]
  · rw [prism_pts_t, prism_poly_53080]
    simp
  · intro i hi
    have hmap : prism_pts_t [(5 : ℝ), 30, 80] = (List.range 5).map (fun j =>
        (center_t.1 + (poly_vertex 5 30 j).1 * prism_scale [(5 : ℝ), 30, 80],
         center_t.2 + (poly_vertex 5 30 j).2 * prism_scale [(5 : ℝ), 30, 80])) := by
      rw [prism_pts_t, prism_poly_53080, List.map_map]
      rfl
    rw [hmap, getD_range_map _ _ _ hi, getD_range_map _ _ _ (Nat.mod_lt _ (by omega)),
      prism_scale_53080, scale_place_pdist _ _ (by norm_num),
      poly_vertex_mod 5 (by norm_num) 30 (i + 1),
      poly_vertex_consec_dist 5 (by norm_num) 30 (by norm_num) i]
    norm_num
  · rw [prism_h_px, prism_nsh_53080, prism_scale_53080]
  · rw [prism_w_px, prism_scale_53080]
  · rw [prism_front_rect, center_f_eval]
    rw [prism_h_px, prism_nsh_53080, prism_scale_53080]
  · rw [prism_nsh_53080]
    simp
  · intro i
    rw [prism_dev_rect, hface_w, hface_h]
    simp only [FRONT_BOX, MARGIN]
  · intro i
    rw [hdevx]
    have hnn : (0 : ℝ) ≤ (i : ℝ) := Nat.cast_nonneg i
    nlinarith
  · intro i
    rw [hdevx, hdevx]
    push_cast
    ring

theorem claim_C7_prism_witness :
    pdist ((prism_pts_t [5, 30, 80]).getD 0 (0, 0))
      ((prism_pts_t [5, 30, 80]).getD ((0 + 1) % 5) (0, 0)) = 30 * (187 / 120) :=
  claim_C7_prism.2.2.2.1 0 (by norm_num)

/-- Claim C7 counterexample: the development faces are not edge-to-edge: the
left edge of face 1 is the right edge of face 0 (`x0 + 30*scale`) plus a
6-pixel gutter, not equal to it. -/
theorem claim_C7_counterexample :
    prism_dev_x0 [5, 30, 80] 1 ≠
      prism_dev_x0 [5, 30, 80] 0 + 30 * (187 / 120) := by
  have hface_w : prism_face_w [(5 : ℝ), 30, 80] = 30 * (187 / 120) := by
    rw [prism_face_w, prism_nsh_53080, prism_scale_53080]
  simp only [prism_dev_x0, hface_w, INFO_BOX, CANVAS_W, MARGIN]
  norm_num
